import Mathlib

set_option autoImplicit false

/-!
# franka_ros: cartesian state handle and simulated gripper

Shallow embedding of

* `franka_hw/include/franka_hw/franka_cartesian_state_interface.h`
  (`hardware_interface::FrankaCartesianStateHandle`), and
* `franka_gazebo/include/franka_gazebo/franka_gripper_sim.h`
  (`franka_gazebo::FrankaGripperSim`).

C++ `double`s are modelled by rationals: the embedded code only copies, compares, clamps and
halves them.  A C++ data pointer is an `Option Nat`: `none` is the null pointer and `some a`
points at address `a` of an explicit memory.

The gripper header declares `update`, `interrupt` and the action servers without defining
them; their behaviour is modelled from the specification, in two layers: the state machine on
the members of `FrankaGripperSim` (`update`, `handle`), which is given the stall signal of each
cycle, and around it the stall estimator fed with joint velocities (`Controller`).
-/

namespace hardware_interface

/-- A `std::array<double, 6>`. -/
abbrev Array6 := Fin 6 → ℚ

/-- A `std::array<std::array<double, 4>, 4>`. -/
abbrev Array4x4 := Fin 4 → Fin 4 → ℚ

/-- A `const T*`: `none` is the null pointer, `some a` the address `a`. -/
abbrev Ptr := Option Nat

/-- The memory the data pointers of a handle point into, read at the time of a getter call. -/
structure Memory where
  array6 : Nat → Array6
  array4x4 : Nat → Array4x4

/-- The exception thrown by the six-argument constructor, with its message. -/
structure HardwareInterfaceException where
  what : String
  deriving DecidableEq, Repr

/-- The private members of `FrankaCartesianStateHandle` (header lines 92-97). -/
structure FrankaCartesianStateHandle where
  name_ : String
  collision_ : Ptr
  contact_ : Ptr
  O_F_ext_hat_EE_ : Ptr
  EE_F_ext_hat_EE_ : Ptr
  O_T_EE_start_ : Ptr
  deriving DecidableEq, Repr

/-- Message of the `throw` at header lines 45-46. -/
def msgCollision : String :=
  "Cannot create handle for cartesian collision. Data pointer is null"

/-- Message of the `throw` at header lines 49-50. -/
def msgContact : String :=
  "Cannot create handle for cartesian contact. Data pointer is null"

/-- Message of the `throw` at header lines 53-55 (two adjacent literals). -/
def msgOFExt : String :=
  "Cannot create handle for O_F_ext_hat_EE external wrench. Data pointer is null"

/-- Message of the `throw` at header lines 58-60 (two adjacent literals). -/
def msgEEFExt : String :=
  "Cannot create handle for EE_F_ext_hat_EE external wrench. Data pointer is null"

/-- Message of the `throw` at header lines 63-65 (two adjacent literals). -/
def msgTransform : String :=
  "Cannot create handle for O_T_EE_start end-effector transform. Data pointer is null"

namespace FrankaCartesianStateHandle

/-- The default constructor (header lines 13-19): empty name, all five pointers `0`. -/
def ctorDefault : FrankaCartesianStateHandle :=
  { name_ := ""
    collision_ := none
    contact_ := none
    O_F_ext_hat_EE_ := none
    EE_F_ext_hat_EE_ := none
    O_T_EE_start_ := none }

/-- The six-argument constructor (header lines 31-67): the members are initialised from the
arguments, then the five null checks run in order; the first one that fires throws. -/
def ctor (name : String) (collision contact O_F_ext_hat_EE EE_F_ext_hat_EE O_T_EE_start : Ptr) :
    Except HardwareInterfaceException FrankaCartesianStateHandle :=
  if collision.isNone then Except.error ⟨msgCollision⟩
  else if contact.isNone then Except.error ⟨msgContact⟩
  else if O_F_ext_hat_EE.isNone then Except.error ⟨msgOFExt⟩
  else if EE_F_ext_hat_EE.isNone then Except.error ⟨msgEEFExt⟩
  else if O_T_EE_start.isNone then Except.error ⟨msgTransform⟩
  else Except.ok
    { name_ := name
      collision_ := collision
      contact_ := contact
      O_F_ext_hat_EE_ := O_F_ext_hat_EE
      EE_F_ext_hat_EE_ := EE_F_ext_hat_EE
      O_T_EE_start_ := O_T_EE_start }

/-- Member function `getName` (header line 69). -/
def getName (h : FrankaCartesianStateHandle) : String := h.name_

/-- Member function `getCollision` (header lines 70-73): `none` is a failed `assert`. -/
def getCollision (h : FrankaCartesianStateHandle) (m : Memory) : Option Array6 :=
  match h.collision_ with
  | none => none
  | some a => some (m.array6 a)

/-- Member function `getContact` (header lines 74-77): `none` is a failed `assert`. -/
def getContact (h : FrankaCartesianStateHandle) (m : Memory) : Option Array6 :=
  match h.contact_ with
  | none => none
  | some a => some (m.array6 a)

/-- Member function `getFExtO` (header lines 78-81): `none` is a failed `assert`. -/
def getFExtO (h : FrankaCartesianStateHandle) (m : Memory) : Option Array6 :=
  match h.O_F_ext_hat_EE_ with
  | none => none
  | some a => some (m.array6 a)

/-- Member function `getFExtEE` (header lines 82-85): `none` is a failed `assert`. -/
def getFExtEE (h : FrankaCartesianStateHandle) (m : Memory) : Option Array6 :=
  match h.EE_F_ext_hat_EE_ with
  | none => none
  | some a => some (m.array6 a)

/-- Member function `getTransform` (header lines 86-89): `none` is a failed `assert`. -/
def getTransform (h : FrankaCartesianStateHandle) (m : Memory) : Option Array4x4 :=
  match h.O_T_EE_start_ with
  | none => none
  | some a => some (m.array4x4 a)

end FrankaCartesianStateHandle

end hardware_interface

namespace franka_gazebo

/-- The constant `kMaxFingerWidth = 0.08` (header line 23). -/
def kMaxFingerWidth : ℚ := 8 / 100

/-- The `enum State` of `FrankaGripperSim` (header lines 47-57). -/
inductive State
  | IDLE
  | HOLDING
  | MOVING
  | GRASPING
  | HOMING
  deriving DecidableEq, Repr, Fintype

/-- Modelled from the spec: the message type `franka_gripper::GraspEpsilon` of the member
`tolerance_` (header line 79), which is not among the sources; the spec's data model gives it as
"`tolerance`: {inner, outer} epsilon band around `widthDesired`". -/
structure GraspEpsilon where
  inner : ℚ
  outer : ℚ
  deriving DecidableEq, Repr

/-- The five actions offered by the controller, one per action server member
(header lines 88-92). -/
inductive Action
  | stop
  | homing
  | move
  | grasp
  | gripper_action
  deriving DecidableEq, Repr

/-- Modelled from the spec: the three ways a command ends for its caller, "success / failure /
aborted" (section 4.4); the result message types are not among the sources. -/
inductive Outcome
  | success
  | failure
  | aborted
  deriving DecidableEq, Repr

/-- The data members of `FrankaGripperSim` that make up the control state: `state_`
(header line 64), the members configurable by action goals (lines 75-79) and the members
configurable by parameters (lines 81-86).  The five action servers (lines 88-92) are
represented by `active_`, the action whose goal is currently executing, following the spec's
single "ActiveCommand" (section 9). -/
structure FrankaGripperSim where
  state_ : State
  width_desired_ : ℚ
  speed_desired_ : ℚ
  force_desired_ : ℚ
  tolerance_ : GraspEpsilon
  speed_samples_ : Int
  speed_threshold_ : ℚ
  speed_default_ : ℚ
  tolerance_move_ : ℚ
  tolerance_gripper_action_ : ℚ
  active_ : Option Action
  deriving DecidableEq, Repr

namespace FrankaGripperSim

/-- Construction of a `FrankaGripperSim`.  Only `state_` has a default member initialiser
(`State state_ = State::IDLE;`, header line 64); the `double` and `int` members have none, so
they start with whatever `indeterminate` holds; the action server pointers start null. -/
def ctor (indeterminate : FrankaGripperSim) : FrankaGripperSim :=
  { indeterminate with state_ := State.IDLE, active_ := none }

end FrankaGripperSim

/-- Modelled from the spec: what one control cycle reads (section 4.1, steps 1 and 2), the
Joint Actuation Port and the Contact/Speed Estimator not being among the sources.  The
fields `q1` and `q2` are the finger positions; `stalled` is the boolean the estimator reports
for this cycle from the velocities it was fed ("used only as a boolean signal consumed by the
state machine"); `period` is the elapsed cycle duration. -/
structure Feedback where
  q1 : ℚ
  q2 : ℚ
  stalled : Bool
  period : ℚ
  deriving DecidableEq, Repr

/-- Modelled from the spec: the width, "derived from both finger positions" (section 3), the
"sum of both finger travel". -/
def Feedback.width (fb : Feedback) : ℚ := fb.q1 + fb.q2

/-- Modelled from the spec: the targets step 3 of the per-cycle update hands to the PID
Computation Unit in step 4, "(position target, velocity target, force target)" for each
finger; the member function `control` is declared (header lines 94-99) but not defined in
the sources. -/
structure Targets where
  q1_d : ℚ
  q2_d : ℚ
  dq1_d : ℚ
  dq2_d : ℚ
  f1_d : ℚ
  f2_d : ℚ
  deriving DecidableEq, Repr

/-- Modelled from the spec: IDLE tracking, "finger 1 tracks zero velocity/effort; finger 2
mirrors finger 1's position (mimicked joint), zero target force". -/
def idleTargets (fb : Feedback) : Targets :=
  { q1_d := fb.q1, q2_d := fb.q1, dq1_d := 0, dq2_d := 0, f1_d := 0, f2_d := 0 }

/-- Modelled from the spec: a "position ramping toward" `goal` "at" `speed`: from `q` the
target advances towards `goal` by at most `speed * period`. -/
def ramp (q goal speed period : ℚ) : ℚ :=
  q + max (-(speed * period)) (min (speed * period) (goal - q))

/-- Modelled from the spec: "speed targets are signed according to open/close direction";
"closing direction reduces width". -/
def signedSpeed (width w_d speed : ℚ) : ℚ :=
  if width < w_d then speed else if w_d < width then -speed else 0

/-- Modelled from the spec: MOVING tracking, "both fingers track a position ramping toward
`widthDesired/2` at `speedDesired`, zero feed-forward force"; GRASPING is "identical tracking
to MOVING" and HOMING drives the fingers to its sweep target the same way. -/
def trackingTargets (s : FrankaGripperSim) (fb : Feedback) : Targets :=
  { q1_d := ramp fb.q1 (s.width_desired_ / 2) s.speed_desired_ fb.period
    q2_d := ramp fb.q2 (s.width_desired_ / 2) s.speed_desired_ fb.period
    dq1_d := signedSpeed fb.width s.width_desired_ s.speed_desired_
    dq2_d := signedSpeed fb.width s.width_desired_ s.speed_desired_
    f1_d := 0
    f2_d := 0 }

/-- Modelled from the spec: HOLDING tracking, "both fingers track zero velocity at current
position while commanding `forceDesired/2` feed-forward force each". -/
def holdingTargets (s : FrankaGripperSim) (fb : Feedback) : Targets :=
  { q1_d := fb.q1, q2_d := fb.q2, dq1_d := 0, dq2_d := 0
    f1_d := s.force_desired_ / 2, f2_d := s.force_desired_ / 2 }

/-- Modelled from the spec: the tolerance band of a grasp, the window
`[widthDesired - epsilon_inner, widthDesired + epsilon_outer]` (section 8; glossary:
"asymmetric epsilon window around a target grasp width").  Section 4.1 words the same check
side by side, the inner bound on the closed side of the target and the outer bound on the open
side; `withinTolerance_iff_sided` relates the two. -/
def withinTolerance (width w_d : ℚ) (tolerance : GraspEpsilon) : Prop :=
  w_d - tolerance.inner ≤ width ∧ width ≤ w_d + tolerance.outer

instance (width w_d : ℚ) (tolerance : GraspEpsilon) :
    Decidable (withinTolerance width w_d tolerance) := by
  unfold withinTolerance; infer_instance

/-- Modelled from the spec: "target width reached (within move tolerance)",
`|currentWidth - widthDesired| ≤ moveTolerance` (sections 4.1 and 8). -/
def targetReached (s : FrankaGripperSim) (fb : Feedback) : Prop :=
  |fb.width - s.width_desired_| ≤ s.tolerance_move_

instance (s : FrankaGripperSim) (fb : Feedback) : Decidable (targetReached s fb) := by
  unfold targetReached; infer_instance

/-- Modelled from the spec: what one control cycle produces, the state after the cycle, the
targets handed to the PID unit, and the completion signal for the waiting command handler, if
a terminal condition was reached (section 4.1, step 5). -/
structure CycleResult where
  next : FrankaGripperSim
  targets : Targets
  report : Option Outcome
  deriving DecidableEq, Repr

/-- Modelled from the spec: a terminal condition of the active command was reached (section
4.1, step 5): the mode changes to `dest` and the command is no longer active. -/
def finish (s : FrankaGripperSim) (dest : State) : FrankaGripperSim :=
  { s with state_ := dest, active_ := none }

/-- Modelled from the spec: the member function `update` (declared at header line 61, defined
in a file that is not among the sources), from the per-cycle update and the transition table
of section 4.1.  Steps 1 and 2 are the reading of `fb`; step 3 dispatches on the mode and
gives the targets of that mode and the transition; step 4, the effort the PID unit computes
from the targets, is not part of the state machine; step 5 is `report`.  In HOMING the sweep
target is `width_desired_`: fully open (`kMaxFingerWidth`) first, then fully closed (`0`). -/
def update (s : FrankaGripperSim) (fb : Feedback) : CycleResult :=
  match s.state_ with
  | State.IDLE => ⟨s, idleTargets fb, none⟩
  | State.HOLDING => ⟨s, holdingTargets s fb, none⟩
  | State.MOVING =>
      if targetReached s fb then
        ⟨finish s State.IDLE, trackingTargets s fb, some Outcome.success⟩
      else ⟨s, trackingTargets s fb, none⟩
  | State.GRASPING =>
      if fb.stalled then
        if withinTolerance fb.width s.width_desired_ s.tolerance_ then
          ⟨finish s State.HOLDING, trackingTargets s fb, some Outcome.success⟩
        else ⟨finish s State.IDLE, trackingTargets s fb, some Outcome.failure⟩
      else ⟨s, trackingTargets s fb, none⟩
  | State.HOMING =>
      if fb.stalled then
        if s.width_desired_ = kMaxFingerWidth then
          ⟨{ s with width_desired_ := 0 }, trackingTargets s fb, none⟩
        else ⟨finish s State.IDLE, trackingTargets s fb, some Outcome.success⟩
      else ⟨s, trackingTargets s fb, none⟩

/-- Modelled from the spec: a command as it reaches its handler (section 6); the goal message
types are not among the sources. -/
inductive Goal
  | stop
  | homing
  | move (width speed : ℚ)
  | grasp (width speed force : ℚ) (epsilon : GraspEpsilon)
  | gripperCommand (position max_effort : ℚ)
  deriving DecidableEq, Repr

/-- Modelled from the spec: what a command handler does before it blocks, the state it
leaves, the reply it gives its caller at once (`none` when it blocks until `update` reports),
and what the command that was active before is told. -/
structure HandlerResult where
  next : FrankaGripperSim
  reply : Option Outcome
  preempted : Option (Action × Outcome)
  deriving DecidableEq, Repr

/-- Modelled from the spec: "width ∈ [0, maxFingerWidth]" clamping of a requested width
(sections 3 and 4.4). -/
def clampWidth (width : ℚ) : ℚ := max 0 (min width kMaxFingerWidth)

/-- Modelled from the spec: the member function `interrupt` (declared at header line 101, not
defined in the sources): "the active handler is woken with an aborted result, the state
machine moves to IDLE" (section 5). -/
def interrupt (s : FrankaGripperSim) : FrankaGripperSim × Option (Action × Outcome) :=
  ({ s with state_ := State.IDLE, active_ := none },
    s.active_.map fun a => (a, Outcome.aborted))

/-- Modelled from the spec: a command is rejected "before any state mutation; caller is told
immediately, no transition occurs" (section 7, InvalidParameter). -/
def reject (s : FrankaGripperSim) : HandlerResult :=
  { next := s, reply := some Outcome.failure, preempted := none }

/-- Modelled from the spec: an accepted command "interrupts any other currently active
command, then sets `mode` and target fields", and its handler blocks (section 4.4). -/
def start (s : FrankaGripperSim) (a : Action) (dest : State) (width speed force : ℚ)
    (tolerance : GraspEpsilon) : HandlerResult :=
  { next :=
      { (interrupt s).1 with
        state_ := dest
        width_desired_ := width
        speed_desired_ := speed
        force_desired_ := force
        tolerance_ := tolerance
        active_ := some a }
    reply := none
    preempted := (interrupt s).2 }

/-- Modelled from the spec: the five command handlers (sections 4.4 and 6), the action server
callbacks not being among the sources.  The requested width is clamped to
`[0, kMaxFingerWidth]` and the speed validated (`speed > 0`); `stop` interrupts and replies
success at once; `homing` starts the sweep fully open at the default speed; `gripperCommand`
is a move when the effort is zero and otherwise a grasp, at the default speed and with the
fixed gripper-command tolerance. -/
def handle (s : FrankaGripperSim) : Goal → HandlerResult
  | Goal.stop =>
      { next := (interrupt s).1, reply := some Outcome.success, preempted := (interrupt s).2 }
  | Goal.homing =>
      start s Action.homing State.HOMING kMaxFingerWidth s.speed_default_ s.force_desired_
        s.tolerance_
  | Goal.move width speed =>
      if 0 < speed then
        start s Action.move State.MOVING (clampWidth width) speed s.force_desired_ s.tolerance_
      else reject s
  | Goal.grasp width speed force epsilon =>
      if 0 < speed then
        start s Action.grasp State.GRASPING (clampWidth width) speed force epsilon
      else reject s
  | Goal.gripperCommand position max_effort =>
      if max_effort = 0 then
        start s Action.gripper_action State.MOVING (clampWidth position) s.speed_default_
          s.force_desired_ s.tolerance_
      else
        start s Action.gripper_action State.GRASPING (clampWidth position) s.speed_default_
          max_effort ⟨s.tolerance_gripper_action_, s.tolerance_gripper_action_⟩

/-- The state after a sequence of control cycles. -/
def run (s : FrankaGripperSim) : List Feedback → FrankaGripperSim
  | [] => s
  | fb :: fbs => run (update s fb).next fbs

/-- What an outside observer sees of one control cycle: the mode it ends in, the commanded
targets and the result reported in it. -/
structure Observed where
  state : State
  targets : Targets
  report : Option Outcome
  deriving DecidableEq, Repr

/-- The observations of a sequence of control cycles. -/
def trace (s : FrankaGripperSim) : List Feedback → List Observed
  | [] => []
  | fb :: fbs =>
      ⟨(update s fb).next.state_, (update s fb).targets, (update s fb).report⟩ ::
        trace (update s fb).next fbs

/-- Modelled from the spec: what the Joint Actuation Port gives a control cycle, the "per-joint
read of position/velocity" of the two fingers (section 2), with the elapsed cycle duration. -/
structure JointFeedback where
  q1 : ℚ
  q2 : ℚ
  dq1 : ℚ
  dq2 : ℚ
  period : ℚ
  deriving DecidableEq, Repr

/-- Modelled from the spec: a finger's "JointControlAxis" record (section 3), of which the
"rolling velocity-sample buffer for stall detection" is kept, newest sample first; the PID
accumulators of the record only enter the effort.  The header has no such member: the record
belongs to the Contact/Speed Estimator of section 4.3. -/
structure JointControlAxis where
  samples : List ℚ
  deriving DecidableEq, Repr

/-- Modelled from the spec: feeding a velocity to the estimator, which "maintains the last N
velocity samples" (section 4.3). -/
def JointControlAxis.feed (n : ℕ) (a : JointControlAxis) (v : ℚ) : JointControlAxis :=
  ⟨(v :: a.samples).take n⟩

/-- Modelled from the spec: the estimator "reports stalled when the mean absolute velocity over
the window is below a configurable threshold" (section 4.3), the window holding its `n`
samples (the "minimum number of consecutive samples" of section 4.1). -/
def JointControlAxis.stalled (n : ℕ) (threshold : ℚ) (a : JointControlAxis) : Bool :=
  decide (n ≤ a.samples.length ∧
    (a.samples.map fun v => |v|).sum / a.samples.length < threshold)

/-- The controller with its estimator: the members of `FrankaGripperSim` and the two finger
records of section 3. -/
structure Controller where
  sim : FrankaGripperSim
  axis1 : JointControlAxis
  axis2 : JointControlAxis
  deriving DecidableEq, Repr

/-- What one control cycle of the controller with its estimator produces. -/
structure ControlCycle where
  next : Controller
  targets : Targets
  report : Option Outcome
  deriving DecidableEq, Repr

namespace Controller

/-- Modelled from the spec: steps 1 and 2 of the per-cycle update (section 4.1): the finger
positions are read, the velocities are fed to the estimator of each finger, and the state
machine is given the boolean signal; contact is reported when both fingers are stalled. -/
def sense (c : Controller) (j : JointFeedback) : Feedback :=
  { q1 := j.q1
    q2 := j.q2
    stalled :=
      (c.axis1.feed c.sim.speed_samples_.toNat j.dq1).stalled c.sim.speed_samples_.toNat
          c.sim.speed_threshold_ &&
        (c.axis2.feed c.sim.speed_samples_.toNat j.dq2).stalled c.sim.speed_samples_.toNat
          c.sim.speed_threshold_
    period := j.period }

/-- Modelled from the spec: one control cycle on joint feedback: the estimator is fed, then
`update` runs on what was sensed. -/
def cycle (c : Controller) (j : JointFeedback) : ControlCycle :=
  { next :=
      { sim := (update c.sim (c.sense j)).next
        axis1 := c.axis1.feed c.sim.speed_samples_.toNat j.dq1
        axis2 := c.axis2.feed c.sim.speed_samples_.toNat j.dq2 }
    targets := (update c.sim (c.sense j)).targets
    report := (update c.sim (c.sense j)).report }

/-- The controller after a sequence of control cycles on joint feedback. -/
def run (c : Controller) : List JointFeedback → Controller
  | [] => c
  | j :: js => run (c.cycle j).next js

/-- The observations of a sequence of control cycles on joint feedback. -/
def trace (c : Controller) : List JointFeedback → List Observed
  | [] => []
  | j :: js =>
      ⟨(c.cycle j).next.sim.state_, (c.cycle j).targets, (c.cycle j).report⟩ ::
        trace (c.cycle j).next js

end Controller

/-- A controller at rest: mode IDLE, no active command, parameters set to typical values
(move tolerance 5 mm, default speed 0.1 m/s). -/
def restingSim : FrankaGripperSim :=
  { state_ := State.IDLE
    width_desired_ := 0
    speed_desired_ := 0
    force_desired_ := 0
    tolerance_ := ⟨0, 0⟩
    speed_samples_ := 10
    speed_threshold_ := 1 / 1000
    speed_default_ := 1 / 10
    tolerance_move_ := 5 / 1000
    tolerance_gripper_action_ := 5 / 1000
    active_ := none }

/-- A grasp in progress: target width 40 mm, force 10 N, tolerance band 5 mm either side. -/
def graspingSim : FrankaGripperSim :=
  { restingSim with
    state_ := State.GRASPING
    width_desired_ := 4 / 100
    speed_desired_ := 1 / 10
    force_desired_ := 10
    tolerance_ := ⟨5 / 1000, 5 / 1000⟩
    active_ := some Action.grasp }

/-- Feedback of a cycle in which the fingers are `q` apiece from the centre, with the
estimator's signal `stalled`, after a period of 1 ms. -/
def feedbackAt (q : ℚ) (stalled : Bool) : Feedback :=
  { q1 := q, q2 := q, stalled := stalled, period := 1 / 1000 }

end franka_gazebo

/-! ## The cartesian state handle -/

namespace hardware_interface

namespace FrankaCartesianStateHandle

/-- C9: the six-argument constructor throws `HardwareInterfaceException` if and only if at least
one of the five data pointers is null, and the message is the one of the first null pointer in
the order collision, contact, O_F_ext_hat_EE, EE_F_ext_hat_EE, O_T_EE_start. -/
theorem ctor_throws_iff_null (name : String) (collision contact O_F_ext_hat_EE EE_F_ext_hat_EE
    O_T_EE_start : Ptr) (a b c d : Nat) :
    ((∃ ex, ctor name collision contact O_F_ext_hat_EE EE_F_ext_hat_EE O_T_EE_start
        = Except.error ex) ↔
      (collision = none ∨ contact = none ∨ O_F_ext_hat_EE = none ∨ EE_F_ext_hat_EE = none ∨
        O_T_EE_start = none)) ∧
    ctor name none contact O_F_ext_hat_EE EE_F_ext_hat_EE O_T_EE_start
      = Except.error ⟨msgCollision⟩ ∧
    ctor name (some a) none O_F_ext_hat_EE EE_F_ext_hat_EE O_T_EE_start
      = Except.error ⟨msgContact⟩ ∧
    ctor name (some a) (some b) none EE_F_ext_hat_EE O_T_EE_start
      = Except.error ⟨msgOFExt⟩ ∧
    ctor name (some a) (some b) (some c) none O_T_EE_start
      = Except.error ⟨msgEEFExt⟩ ∧
    ctor name (some a) (some b) (some c) (some d) none
      = Except.error ⟨msgTransform⟩ := by
  refine ⟨?_, rfl, rfl, rfl, rfl, rfl⟩
  cases collision <;> cases contact <;> cases O_F_ext_hat_EE <;> cases EE_F_ext_hat_EE <;>
    cases O_T_EE_start <;> simp [ctor]

/-- C10: a handle built by the six-argument constructor from five non-null pointers returns the
given name from `getName`, and each of `getCollision`, `getContact`, `getFExtO`, `getFExtEE`,
`getTransform` passes its assertion and returns the current value behind its own pointer; the
default-constructed handle has all five pointers null. -/
theorem getters_read_own_source (name : String) (a b c d e : Nat) (m : Memory) :
    (∃ h, ctor name (some a) (some b) (some c) (some d) (some e) = Except.ok h ∧
      getName h = name ∧
      getCollision h m = some (m.array6 a) ∧
      getContact h m = some (m.array6 b) ∧
      getFExtO h m = some (m.array6 c) ∧
      getFExtEE h m = some (m.array6 d) ∧
      getTransform h m = some (m.array4x4 e)) ∧
    ctorDefault.collision_ = none ∧ ctorDefault.contact_ = none ∧
    ctorDefault.O_F_ext_hat_EE_ = none ∧ ctorDefault.EE_F_ext_hat_EE_ = none ∧
    ctorDefault.O_T_EE_start_ = none :=
  ⟨⟨_, rfl, rfl, rfl, rfl, rfl, rfl, rfl⟩, rfl, rfl, rfl, rfl, rfl⟩

end FrankaCartesianStateHandle

end hardware_interface

/-! ## The simulated gripper -/

namespace franka_gazebo

open State

/-- C8: a newly created controller has mode IDLE, whatever its uninitialised members hold, and a
mode is one of exactly the five values IDLE, HOLDING, MOVING, GRASPING, HOMING. -/
theorem initial_state_idle (indeterminate : FrankaGripperSim) :
    (FrankaGripperSim.ctor indeterminate).state_ = IDLE ∧
    (∀ m : State, m = IDLE ∨ m = HOLDING ∨ m = MOVING ∨ m = GRASPING ∨ m = HOMING) ∧
    Fintype.card State = 5 := by
  refine ⟨rfl, ?_, rfl⟩
  intro m
  cases m <;> simp


/-! ### The per-cycle update, mode by mode -/

theorem update_idle (s : FrankaGripperSim) (fb : Feedback) (h : s.state_ = IDLE) :
    update s fb = ⟨s, idleTargets fb, none⟩ := by
  simp [update, h]

theorem update_holding (s : FrankaGripperSim) (fb : Feedback) (h : s.state_ = HOLDING) :
    update s fb = ⟨s, holdingTargets s fb, none⟩ := by
  simp [update, h]

theorem update_grasping (s : FrankaGripperSim) (fb : Feedback) (h : s.state_ = GRASPING) :
    update s fb =
      if fb.stalled then
        if withinTolerance fb.width s.width_desired_ s.tolerance_ then
          ⟨finish s HOLDING, trackingTargets s fb, some Outcome.success⟩
        else ⟨finish s IDLE, trackingTargets s fb, some Outcome.failure⟩
      else ⟨s, trackingTargets s fb, none⟩ := by
  simp [update, h]

/-- For non-negative epsilons the tolerance window is the side-by-side check of section 4.1:
at or below the target the distance to it is bounded by the inner epsilon, above the target
by the outer one. -/
theorem withinTolerance_iff_sided (width w_d : ℚ) (tolerance : GraspEpsilon)
    (hinner : 0 ≤ tolerance.inner) (houter : 0 ≤ tolerance.outer) :
    withinTolerance width w_d tolerance ↔
      if width ≤ w_d then |width - w_d| ≤ tolerance.inner
      else |width - w_d| ≤ tolerance.outer := by
  unfold withinTolerance
  split_ifs with hside
  · rw [abs_of_nonpos (by linarith)]
    constructor
    · intro h; linarith [h.1]
    · intro h; exact ⟨by linarith, by linarith⟩
  · rw [abs_of_pos (by linarith [not_le.mp hside])]
    constructor
    · intro h; linarith [h.2]
    · intro h; exact ⟨by linarith [not_le.mp hside], by linarith⟩


/-- C1: in a control cycle in which the mode is GRASPING and the stall detector reports contact,
the per-cycle update leaves GRASPING.  When the current width lies in
`[widthDesired - epsilon_inner, widthDesired + epsilon_outer]` it moves to HOLDING, reports
success, and the feed-forward forces commanded on the two fingers in HOLDING sum to
`forceDesired`; otherwise it moves to IDLE, reports failure, and the commanded feed-forward
force is zero, in that cycle and in the IDLE cycles after it. -/
theorem grasp_resolves_on_contact (s : FrankaGripperSim) (fb : Feedback)
    (hmode : s.state_ = GRASPING) (hstall : fb.stalled = true) :
    (update s fb).next.state_ ≠ GRASPING ∧
    ((s.width_desired_ - s.tolerance_.inner ≤ fb.width ∧
        fb.width ≤ s.width_desired_ + s.tolerance_.outer) →
      (update s fb).next.state_ = HOLDING ∧
      (update s fb).report = some Outcome.success ∧
      ∀ fb2 : Feedback,
        (update (update s fb).next fb2).targets.f1_d
          + (update (update s fb).next fb2).targets.f2_d = s.force_desired_) ∧
    (¬ (s.width_desired_ - s.tolerance_.inner ≤ fb.width ∧
        fb.width ≤ s.width_desired_ + s.tolerance_.outer) →
      (update s fb).next.state_ = IDLE ∧
      (update s fb).report = some Outcome.failure ∧
      (update s fb).targets.f1_d = 0 ∧ (update s fb).targets.f2_d = 0 ∧
      ∀ fb2 : Feedback,
        (update (update s fb).next fb2).targets.f1_d = 0 ∧
        (update (update s fb).next fb2).targets.f2_d = 0) := by
  by_cases hb : withinTolerance fb.width s.width_desired_ s.tolerance_
  · have hu : update s fb
        = ⟨finish s HOLDING, trackingTargets s fb, some Outcome.success⟩ := by
      rw [update_grasping s fb hmode, if_pos hstall, if_pos hb]
    refine ⟨by simp [hu, finish], fun _ => ⟨by simp [hu, finish], by simp [hu], ?_⟩,
      fun hn => absurd hb hn⟩
    intro fb2
    rw [hu, update_holding _ fb2 rfl]
    simp only [finish, holdingTargets]
    ring
  · have hu : update s fb
        = ⟨finish s IDLE, trackingTargets s fb, some Outcome.failure⟩ := by
      rw [update_grasping s fb hmode, if_pos hstall, if_neg hb]
    refine ⟨by simp [hu, finish], fun hy => absurd hy hb, fun _ =>
      ⟨by simp [hu, finish], by simp [hu], by simp [hu, trackingTargets],
        by simp [hu, trackingTargets], ?_⟩⟩
    intro fb2
    rw [hu, update_idle _ fb2 rfl]
    simp [idleTargets]

/-- Witness for C1: a grasp at 40 mm with a 5 mm band that stalls at 42 mm resolves to
HOLDING. -/
theorem grasp_resolves_on_contact_witness :
    graspingSim.state_ = GRASPING ∧ (feedbackAt (21 / 1000) true).stalled = true ∧
    (update graspingSim (feedbackAt (21 / 1000) true)).next.state_ = HOLDING ∧
    (update graspingSim (feedbackAt (21 / 1000) true)).report = some Outcome.success :=
  ⟨rfl, rfl,
    ((grasp_resolves_on_contact graspingSim (feedbackAt (21 / 1000) true) rfl rfl).2.1
      (by norm_num [graspingSim, restingSim, feedbackAt, Feedback.width])).1,
    ((grasp_resolves_on_contact graspingSim (feedbackAt (21 / 1000) true) rfl rfl).2.1
      (by norm_num [graspingSim, restingSim, feedbackAt, Feedback.width])).2.1⟩

/-! ### Idle cycles -/

theorem run_idle (s : FrankaGripperSim) (fbs : List Feedback) (h : s.state_ = IDLE) :
    run s fbs = s := by
  induction fbs with
  | nil => rfl
  | cons fb fbs ih => simp only [run, update_idle s fb h]; exact ih

theorem trace_idle (s : FrankaGripperSim) (fbs : List Feedback) (h : s.state_ = IDLE) :
    trace s fbs = fbs.map fun fb => ⟨IDLE, idleTargets fb, none⟩ := by
  induction fbs with
  | nil => rfl
  | cons fb fbs ih => simp only [trace, update_idle s fb h, List.map_cons, ih, h]

/-! ### Stop -/

/-- C2: issuing stop in whatever mode puts the state machine in IDLE at once, so no later than
the next control cycle, with no command active any more; a command that was active is told
aborted, and aborted is the only thing stop tells an interrupted command, never success; no
later control cycle leaves IDLE, reports a result or commands a feed-forward force. -/
theorem stop_preempts (s : FrankaGripperSim) :
    (handle s Goal.stop).next.state_ = IDLE ∧
    (handle s Goal.stop).next.active_ = none ∧
    (∀ a : Action, s.active_ = some a →
      (handle s Goal.stop).preempted = some (a, Outcome.aborted)) ∧
    (∀ told : Action × Outcome, (handle s Goal.stop).preempted = some told →
      told.2 = Outcome.aborted ∧ told.2 ≠ Outcome.success) ∧
    ∀ fbs : List Feedback,
      (run (handle s Goal.stop).next fbs).state_ = IDLE ∧
      ∀ o ∈ trace (handle s Goal.stop).next fbs,
        o.state = IDLE ∧ o.report = none ∧ o.targets.f1_d = 0 ∧ o.targets.f2_d = 0 := by
  have hidle : (handle s Goal.stop).next.state_ = IDLE := rfl
  have hpre : (handle s Goal.stop).preempted = s.active_.map fun a => (a, Outcome.aborted) :=
    rfl
  refine ⟨hidle, rfl, fun a ha => by rw [hpre, ha]; rfl, ?_,
    fun fbs => ⟨by rw [run_idle _ fbs hidle]; exact hidle, ?_⟩⟩
  · intro told htold
    rw [hpre] at htold
    cases hact : s.active_ with
    | none => simp [hact] at htold
    | some a =>
        simp only [hact, Option.map_some', Option.some.injEq] at htold
        subst htold
        exact ⟨rfl, fun h => Outcome.noConfusion h⟩
  · intro o ho
    rw [trace_idle _ fbs hidle, List.mem_map] at ho
    obtain ⟨fb, -, rfl⟩ := ho
    exact ⟨rfl, rfl, rfl, rfl⟩

/-- Witness for C2: stop during the grasp of `graspingSim`. -/
theorem stop_preempts_witness :
    graspingSim.state_ = GRASPING ∧ graspingSim.active_ = some Action.grasp ∧
    (handle graspingSim Goal.stop).next.state_ = IDLE ∧
    (handle graspingSim Goal.stop).preempted = some (Action.grasp, Outcome.aborted) :=
  ⟨rfl, rfl, (stop_preempts graspingSim).1, (stop_preempts graspingSim).2.2.1 Action.grasp rfl⟩

/-- C6: issuing stop while the mode is IDLE replies success at once and leaves mode,
widthDesired, speedDesired, forceDesired and tolerance unchanged (the whole state when no
command is active); a second stop changes nothing the first one left. -/
theorem stop_idle_noop (s : FrankaGripperSim) (hmode : s.state_ = IDLE) :
    (handle s Goal.stop).reply = some Outcome.success ∧
    (handle s Goal.stop).next.state_ = s.state_ ∧
    (handle s Goal.stop).next.width_desired_ = s.width_desired_ ∧
    (handle s Goal.stop).next.speed_desired_ = s.speed_desired_ ∧
    (handle s Goal.stop).next.force_desired_ = s.force_desired_ ∧
    (handle s Goal.stop).next.tolerance_ = s.tolerance_ ∧
    (s.active_ = none → (handle s Goal.stop).next = s) ∧
    (handle (handle s Goal.stop).next Goal.stop).next = (handle s Goal.stop).next ∧
    (handle (handle s Goal.stop).next Goal.stop).reply = (handle s Goal.stop).reply := by
  refine ⟨rfl, hmode.symm, rfl, rfl, rfl, rfl, ?_, rfl, rfl⟩
  intro hnone
  cases s
  simp only [handle, interrupt] at *
  simp [hmode, hnone]

/-- Witness for C6: stop on the controller at rest. -/
theorem stop_idle_noop_witness :
    restingSim.state_ = IDLE ∧ (handle restingSim Goal.stop).next = restingSim ∧
    (handle restingSim Goal.stop).reply = some Outcome.success :=
  ⟨rfl, (stop_idle_noop restingSim rfl).2.2.2.2.2.2.1 rfl, (stop_idle_noop restingSim rfl).1⟩

/-! ### The width bound -/

end franka_gazebo
